import Mathlib

/-!
Verification of the term-sheet validation engine of the
Termsheet-Validation repository.

The repository ships the engine's configuration
(`backend/uploads/reference/validation_rules_reference.json`), a sample
annotated document, and the React frontend that drives the engine over
`/validation/*` endpoints; the engine itself (comparator, classifier,
risk scorer, session state machine) is not among the supplied sources.
Definitions for those components are therefore modelled from the
specification's words (each such definition says so in its doc comment);
the frontend request flow is embedded from the JavaScript sources
(`frontend/src/pages/ValidationPage.jsx`,
`frontend/src/components/ValidationInterface.jsx`, and the axios API
wrapper).

Numbers are embedded as rationals (`ℚ`); calendar dates as civil
year/month/day converted to a day count.
-/

namespace Termsheet

/-- Modelled from the spec: the `comparison_type` enum of a
ValidationRule (§3 Data model). -/
inductive CompType where
  | exact_match
  | fuzzy_match
  | range_check
  | pattern_match
  | numeric_tolerance
  | date_tolerance
  | categorical
  deriving DecidableEq

/-- Modelled from the spec: per-field verdict (`validation_status`). -/
inductive Verdict where
  | valid
  | invalid
  | missing
  | warning
  deriving DecidableEq

/-- Modelled from the spec: discrepancy severity tier. -/
inductive Severity where
  | none
  | minor
  | critical
  deriving DecidableEq

/-- Modelled from the spec: a ValidationRule record (§3); the reference
JSON supplies tolerance / critical_threshold / allowed values per term,
the spec adds `required` and the comparison type. `pattern` is the
rule-supplied pattern for `pattern_match` rules. -/
structure ValidationRule where
  term_name : String
  comparison_type : CompType
  tolerance : ℚ
  critical_threshold : ℚ
  required : Bool
  allowed_values : List String
  pattern : String
  deriving DecidableEq

/-- A typed scalar value of a term: numeric, string, or a calendar date
(already converted to a day number). -/
inductive Value where
  | num (q : ℚ)
  | str (s : String)
  | date (day : Int)
  deriving DecidableEq

/-- Modelled from the spec: a per-TermPair ValidationResult (§3), with
the owning term's name carried along for description/recommendation
templating. -/
structure ValidationResult where
  term_name : String
  validation_status : Verdict
  match_score : Option ℚ
  validation_method : String
  severity : Severity
  description : String
  deriving DecidableEq

/-- Modelled from the spec: the epsilon guard in the numeric relative
deviation (its exact value is left open by the spec; any small positive
constant realises it). -/
def epsilon : ℚ := 1 / 1000000000

/-- Modelled from the spec (§4.2 `numeric_tolerance`):
`relative_deviation = abs(expected - extracted) / max(abs(expected), epsilon)`. -/
def relDev (expected extracted : ℚ) : ℚ :=
  |expected - extracted| / max |expected| epsilon

/-- Modelled from the spec (§4.2): the numeric-tolerance bands.
`deviation <= tolerance` → valid with score `1 - deviation`;
`tolerance < deviation <= critical_threshold` → warning;
`deviation > critical_threshold` → invalid with score `max(0, 1 - deviation)`. -/
def numericBands (expected extracted tol crit : ℚ) : Verdict × ℚ :=
  if relDev expected extracted ≤ tol then
    (Verdict.valid, 1 - relDev expected extracted)
  else if relDev expected extracted ≤ crit then
    (Verdict.warning, max 0 (1 - relDev expected extracted))
  else (Verdict.invalid, max 0 (1 - relDev expected extracted))

/-- Modelled from the spec (§4.2 `date_tolerance`):
`day_diff = abs(days_between(expected, extracted))`, as a rational. -/
def dayDiff (expected extracted : Int) : ℚ :=
  ((expected - extracted).natAbs : ℚ)

/-- Modelled from the spec (§4.2 `date_tolerance`): the clamped date
score `max(0, 1 - day_diff / critical_threshold)`. -/
def dateScore (expected extracted : Int) (crit : ℚ) : ℚ :=
  max 0 (1 - dayDiff expected extracted / crit)

/-- Modelled from the spec (§4.2 `date_tolerance`): same bands as
numeric, on day counts instead of relative deviation. -/
def dateBands (expected extracted : Int) (tol crit : ℚ) : Verdict × ℚ :=
  if dayDiff expected extracted ≤ tol then
    (Verdict.valid, dateScore expected extracted crit)
  else if dayDiff expected extracted ≤ crit then
    (Verdict.warning, dateScore expected extracted crit)
  else (Verdict.invalid, dateScore expected extracted crit)

/-- Case-fold and whitespace-normalize a string (the spec's
"case-insensitive, whitespace-normalized equality"). -/
def normStr (s : String) : String :=
  String.intercalate " " ((s.toLower.split Char.isWhitespace).filter (· ≠ ""))

/-- Modelled from the spec (§4.3 Discrepancy Classifier): verdict + the
rule's `required` flag determine severity: `invalid`/`missing` with
required → critical; `invalid` without required → minor; `warning` →
minor; `valid` → none. (`missing` without required cannot arise from the
comparator's missing-value policy; it is classified minor.) -/
def classify (v : Verdict) (required : Bool) : Severity :=
  match v with
  | Verdict.valid => Severity.none
  | Verdict.warning => Severity.minor
  | Verdict.invalid => if required then Severity.critical else Severity.minor
  | Verdict.missing => if required then Severity.critical else Severity.minor

/-- The `validation_method` string echoing a comparison type. -/
def methodName : CompType → String
  | CompType.exact_match => "exact_match"
  | CompType.fuzzy_match => "fuzzy_match"
  | CompType.range_check => "range_check"
  | CompType.pattern_match => "pattern_match"
  | CompType.numeric_tolerance => "numeric_tolerance"
  | CompType.date_tolerance => "date_tolerance"
  | CompType.categorical => "categorical"

/-- Modelled from the spec (§4.2): the typed comparison dispatch. `none`
signals a type mismatch between the rule's comparison type and the
values supplied (or a comparison the spec gives no algorithm for), which
the comparator reports as an `invalid` verdict, never an exception.
`sim` is the (spec-open) fuzzy similarity function, `pat` the
(spec-open) pattern matcher. -/
def compareTyped (sim : String → String → ℚ) (pat : String → String → Bool)
    (rule : ValidationRule) (e x : Value) : Option (Verdict × ℚ) :=
  match rule.comparison_type, e, x with
  | CompType.numeric_tolerance, Value.num a, Value.num b =>
      some (numericBands a b rule.tolerance rule.critical_threshold)
  | CompType.range_check, Value.num a, Value.num b =>
      some (numericBands a b rule.tolerance rule.critical_threshold)
  | CompType.date_tolerance, Value.date a, Value.date b =>
      some (dateBands a b rule.tolerance rule.critical_threshold)
  | CompType.exact_match, Value.str a, Value.str b =>
      some (if normStr a = normStr b then (Verdict.valid, 1) else (Verdict.invalid, 0))
  | CompType.fuzzy_match, Value.str a, Value.str b =>
      let s := sim a b
      some (if rule.tolerance ≤ s then (Verdict.valid, s)
            else if rule.tolerance / 2 ≤ s then (Verdict.warning, s)
            else (Verdict.invalid, s))
  | CompType.categorical, _, Value.str b =>
      some (if rule.allowed_values.any (fun a => normStr a = normStr b)
            then (Verdict.valid, 1) else (Verdict.invalid, 0))
  | CompType.pattern_match, _, Value.str b =>
      some (if pat rule.pattern b then (Verdict.valid, 1) else (Verdict.invalid, 0))
  | _, _, _ => none

/-- Modelled from the spec (§4.2): the result record when both values
are present — the typed comparison's verdict and score, or, on a type
mismatch, an `invalid` verdict with an explanatory description instead
of an exception. -/
def compareBoth (sim : String → String → ℚ) (pat : String → String → Bool)
    (rule : ValidationRule) (e x : Value) : ValidationResult :=
  match compareTyped sim pat rule e x with
  | some vs =>
      ⟨rule.term_name, vs.1, some vs.2, methodName rule.comparison_type,
        classify vs.1 rule.required,
        rule.term_name ++ " compared by " ++ methodName rule.comparison_type⟩
  | Option.none =>
      ⟨rule.term_name, Verdict.invalid, some 0, methodName rule.comparison_type,
        classify Verdict.invalid rule.required,
        "type mismatch between expected and extracted values"⟩

/-- Modelled from the spec (§4.2 Field Comparator): a pure, total
function of (expected, extracted, rule). Missing-value policy: absent
extracted value on a required rule → `missing` with score 0 regardless
of comparison type; absent extracted value on an optional rule →
`warning`; absent expected value → `warning` (never `invalid`); no rule
→ `valid` / method "unvalidated". A type mismatch degrades to an
`invalid` verdict with an explanatory description instead of an
exception. -/
def compare (sim : String → String → ℚ) (pat : String → String → Bool)
    (rule? : Option ValidationRule) (expected extracted : Option Value) :
    ValidationResult :=
  match rule? with
  | Option.none =>
      ⟨"", Verdict.valid, some 1, "unvalidated", Severity.none,
        "unrecognized term: informational only"⟩
  | some rule =>
      match extracted with
      | Option.none =>
          if rule.required then
            ⟨rule.term_name, Verdict.missing, some 0, methodName rule.comparison_type,
              classify Verdict.missing rule.required, "required field missing from document"⟩
          else
            ⟨rule.term_name, Verdict.warning, some 0, methodName rule.comparison_type,
              classify Verdict.warning rule.required, "optional field absent from document"⟩
      | some x =>
          match expected with
          | Option.none =>
              ⟨rule.term_name, Verdict.warning, Option.none,
                methodName rule.comparison_type, classify Verdict.warning rule.required,
                "no internal reference value exists for this field"⟩
          | some e => compareBoth sim pat rule e x

/-- A trivial similarity function, used to instantiate the spec-open
`sim` parameter at concrete inputs. -/
def simZero : String → String → ℚ := fun _ _ => 0

/-- A trivial pattern matcher, used to instantiate the spec-open `pat`
parameter at concrete inputs. -/
def patFalse : String → String → Bool := fun _ _ => false

/-- Modelled from the spec: session-level compliance status. -/
inductive Compliance where
  | compliant
  | partial_compliant
  | non_compliant
  deriving DecidableEq

/-- Modelled from the spec / reference JSON `risk_scoring`: weight added
per critical-severity result. -/
def critical_discrepancy_weight : ℚ := 25

/-- Modelled from the spec / reference JSON `risk_scoring`: weight added
per minor-severity result. -/
def minor_discrepancy_weight : ℚ := 10

/-- Modelled from the spec / reference JSON `risk_scoring`: weight added
per warning-status result. -/
def warning_weight : ℚ := 5

/-- Modelled from the spec / reference JSON `risk_scoring`: the clamp
ceiling for cumulative risk points. -/
def max_score : ℚ := 100

/-- A result's match score with null counted as 0, as the scorer's
denominator-inclusive mean prescribes. -/
def scoreOf (r : ValidationResult) : ℚ := r.match_score.getD 0

/-- Modelled from the spec (§4.4 step 1): mean of match scores over all
results, null scores counting as 0 (an empty result set yields 0, as ℚ
division by zero is 0). -/
def overall_accuracy (rs : List ValidationResult) : ℚ :=
  (rs.map scoreOf).sum / (rs.length : ℚ)

/-- Modelled from the spec (§4.4 step 2): the risk weight one result
contributes. -/
def resultRisk (r : ValidationResult) : ℚ :=
  (if r.severity = Severity.critical then critical_discrepancy_weight else 0)
    + (if r.severity = Severity.minor then minor_discrepancy_weight else 0)
    + (if r.validation_status = Verdict.warning then warning_weight else 0)

/-- Modelled from the spec (§4.4 step 2): cumulative risk points,
clamped to `[0, max_score]`. -/
def risk_points (rs : List ValidationResult) : ℚ :=
  min max_score (max 0 (rs.map resultRisk).sum)

/-- Whether some result has critical severity. -/
def hasCritical (rs : List ValidationResult) : Bool :=
  rs.any fun r => decide (r.severity = Severity.critical)

/-- Whether some result has minor severity or warning status. -/
def hasMinorOrWarning (rs : List ValidationResult) : Bool :=
  rs.any fun r =>
    decide (r.severity = Severity.minor) || decide (r.validation_status = Verdict.warning)

/-- Modelled from the spec (§4.4 step 3): `non_compliant` if any
critical-severity result exists; else `partial_compliant` if any
minor/warning exists; else `compliant`. -/
def compliance_status (rs : List ValidationResult) : Compliance :=
  if hasCritical rs then Compliance.non_compliant
  else if hasMinorOrWarning rs then Compliance.partial_compliant
  else Compliance.compliant

/-- Modelled from the spec (§4.4 step 4): one templated recommendation
per critical or minor result, naming the field. -/
def recommendations (rs : List ValidationResult) : List String :=
  (rs.filter fun r =>
      decide (r.severity = Severity.critical) || decide (r.severity = Severity.minor)).map
    fun r => "Verify " ++ r.term_name ++ " with counterparty before proceeding"

/-- Modelled from the spec (§3): the aggregate ValidationSummary. -/
structure ValidationSummary where
  total_terms : Nat
  valid_terms : Nat
  invalid_terms : Nat
  missing_terms : Nat
  accuracy : ℚ
  risk : ℚ
  compliance : Compliance
  recs : List String
  deriving DecidableEq

/-- Modelled from the spec (§4.4 Risk Scorer): the full summary computed
from a session's result sequence, with no other input. -/
def computeSummary (rs : List ValidationResult) : ValidationSummary :=
  ⟨rs.length,
    (rs.filter fun r => decide (r.validation_status = Verdict.valid)).length,
    (rs.filter fun r => decide (r.validation_status = Verdict.invalid)).length,
    (rs.filter fun r => decide (r.validation_status = Verdict.missing)).length,
    overall_accuracy rs,
    risk_points rs,
    compliance_status rs,
    recommendations rs⟩

/-- Modelled from the spec (§4.5): session lifecycle states. -/
inductive SessionStatus where
  | pending
  | processing
  | completed
  | failed
  | manual_review
  deriving DecidableEq

/-- Modelled from the spec (§7 error taxonomy): the error kinds engine
operations fail with. -/
inductive VErrorKind where
  | configurationError
  | notFoundError
  | conflictError
  | invalidStateError
  deriving DecidableEq

/-- Modelled from the spec: the terminal decision on a session. -/
inductive Decision where
  | approve
  | reject
  | manual_review
  deriving DecidableEq

/-- Modelled from the spec (§3): the ValidationSession root aggregate. -/
structure ValidationSession where
  id : Nat
  session_name : String
  file_id : String
  trade_id : String
  status : SessionStatus
  results : List ValidationResult
  summary : Option ValidationSummary
  decision : Option Decision
  decision_reason : String
  deriving DecidableEq

/-- Modelled from the spec (§6):
`create(session_name, file_id, trade_id) -> ValidationSession`, a fresh
session in state `pending` carrying the given trade_id. -/
def createSession (i : Nat) (session_name file_id trade_id : String) :
    ValidationSession :=
  ⟨i, session_name, file_id, trade_id, SessionStatus.pending, [],
    Option.none, Option.none, ""⟩

/-- Modelled from the spec (§4.5): the state a decision moves a session
to: approve → completed, reject → failed, manual_review → manual_review. -/
def statusOfDecision : Decision → SessionStatus
  | Decision.approve => SessionStatus.completed
  | Decision.reject => SessionStatus.failed
  | Decision.manual_review => SessionStatus.manual_review

/-- Modelled from the spec (§4.5 `decide`): requires the session to be in
completed, failed, or manual_review; fails with InvalidStateError while
it is still pending/processing, leaving the session unchanged. Returns
the operation outcome together with the session state after the call. -/
def decideStep (s : ValidationSession) (d : Decision) (reason : String) :
    Except VErrorKind ValidationSession × ValidationSession :=
  match s.status with
  | SessionStatus.pending => (Except.error VErrorKind.invalidStateError, s)
  | SessionStatus.processing => (Except.error VErrorKind.invalidStateError, s)
  | _ =>
      let s' := { s with status := statusOfDecision d, decision := some d,
                         decision_reason := reason }
      (Except.ok s', s')

/-- An extracted document field: term name and optional value. -/
abbrev ExtractedTerm : Type := String × Option Value

/-- Modelled from the spec (§4.5 `start`): only a `pending` session may
start (otherwise ConflictError, session unchanged); an unresolvable
trade_id fails with NotFoundError and moves the session to `failed`;
otherwise every extracted term is compared under the registry's rule
against the trade record's value, the summary is computed, and the
session completes. Comparison anomalies never abort the run. -/
def startStep (s : ValidationSession) (trade? : Option (List (String × Value)))
    (extracted : List ExtractedTerm) (registry : String → Option ValidationRule)
    (sim : String → String → ℚ) (pat : String → String → Bool) :
    Except VErrorKind ValidationSession × ValidationSession :=
  if s.status = SessionStatus.pending then
    match trade? with
    | Option.none =>
        let s' := { s with status := SessionStatus.failed }
        (Except.error VErrorKind.notFoundError, s')
    | some trade =>
        let rs := extracted.map fun t =>
          compare sim pat (registry t.1) (trade.lookup t.1) t.2
        let s' := { s with status := SessionStatus.completed, results := rs,
                           summary := some (computeSummary rs) }
        (Except.ok s', s')
  else (Except.error VErrorKind.conflictError, s)

/-- Days since the civil epoch 1970-01-01 of a (year, month, day) date,
by the standard days-from-civil algorithm (all divisions on the
concrete dates used here are of nonnegative quantities, where Int
division agrees with floor division). -/
def daysFromCivil (y m d : Int) : Int :=
  let y' := y - (if m ≤ 2 then 1 else 0)
  let era := (if 0 ≤ y' then y' else y' - 399) / 400
  let yoe := y' - era * 400
  let mp := (m + 9) % 12
  let doy := (153 * mp + 2) / 5 + d - 1
  let doe := yoe * 365 + yoe / 4 - yoe / 100 + doy
  era * 146097 + doe - 719468

/-- The `settlement_date` rule of
`backend/uploads/reference/validation_rules_reference.json` (tolerance 5
days, critical_threshold 14 days); `required` is true per the spec's
end-to-end scenario (the reference JSON carries no required flag). -/
def settlementRule : ValidationRule :=
  ⟨"settlement_date", CompType.date_tolerance, 5, 14, true, [], ""⟩

/-- The `interest_rate` rule of
`backend/uploads/reference/validation_rules_reference.json`
(tolerance 0.25, critical_threshold 0.5, numeric). -/
def interestRule : ValidationRule :=
  ⟨"interest_rate", CompType.numeric_tolerance, 1 / 4, 1 / 2, true, [], ""⟩

/-- The comparator's output on the Deutsche Bank sample's settlement
date: expected 2025-04-10 (trade record), extracted 2025-05-15
(document). -/
def settlementResult : ValidationResult :=
  compare simZero patFalse (some settlementRule)
    (some (Value.date (daysFromCivil 2025 4 10)))
    (some (Value.date (daysFromCivil 2025 5 15)))

/-- The comparator's output on the Deutsche Bank sample's interest rate:
expected 4.10, extracted 4.40. -/
def interestResult : ValidationResult :=
  compare simZero patFalse (some interestRule)
    (some (Value.num (41 / 10))) (some (Value.num (22 / 5)))

/-- The data the frontend's session-creation form collects
(`ValidationPage.jsx`, `sessionData` state). -/
structure SessionFormData where
  session_name : String
  file_id : String
  trade_id : String

/-- An HTTP request as the frontend's axios wrapper issues it: method,
path, and a JSON body flattened to key/value pairs. -/
structure ApiRequest where
  method : String
  path : String
  body : List (String × String)
  deriving DecidableEq

/-- Embedded from `ValidationPage.jsx` `handleCreateSession` (lines
210–216) with `api.js` `createValidationSession`: the body POSTed to
`/validation/sessions` holds exactly session_name, file_id and the
literal validation_type `enhanced_interface` — no trade_id. -/
def createSessionRequest (sd : SessionFormData) : ApiRequest :=
  ⟨"POST", "/validation/sessions",
    [("session_name", sd.session_name), ("file_id", sd.file_id),
      ("validation_type", "enhanced_interface")]⟩

/-- Embedded from `ValidationPage.jsx` `handleCreateSession` (lines
224–228) with `api.js` `startValidationInterface`: the body POSTed to
`/validation/sessions/{id}/start-validation` holds file_id and
trade_id. -/
def startValidationRequest (sessionId : String) (sd : SessionFormData) : ApiRequest :=
  ⟨"POST", "/validation/sessions/" ++ sessionId ++ "/start-validation",
    [("file_id", sd.file_id), ("trade_id", sd.trade_id)]⟩

/-- Embedded from `ValidationInterface.jsx` `handleDecision` (the
`switch (decisionType)` over the new status): approve → completed,
reject → failed, manual_review → manual_review, anything else →
completed (the default branch). -/
def statusForDecision (d : String) : String :=
  if d = "approve" then "completed"
  else if d = "reject" then "failed"
  else if d = "manual_review" then "manual_review"
  else "completed"

/-- The observable outcome of the frontend's decision flow:
which status value was PATCHed (if the call was reached), whether the
PATCH was applied, whether the flow reached the dashboard navigation,
and whether the error banner was set. -/
structure DecisionFlowOutcome where
  statusPatchSent : Option String
  statusPatchApplied : Bool
  navigatedToDashboard : Bool
  errorSet : Bool
  deriving DecidableEq

/-- Embedded from `ValidationInterface.jsx` `handleDecision`:
`makeValidationDecision` is awaited inside the outer try (failure sets
the error banner and aborts); on success the status PATCH is issued in
an inner try whose catch only logs, so a PATCH failure never aborts the
flow, which always proceeds to `navigate('/dashboard')`. `apiOk` and
`patchOk` model whether the two awaited calls succeed. -/
def handleDecision (decision : String) (apiOk patchOk : Bool) : DecisionFlowOutcome :=
  if apiOk then
    ⟨some (statusForDecision decision), patchOk, true, false⟩
  else
    ⟨Option.none, false, false, true⟩

/-! ## Evaluation lemmas for the comparator -/

/-- On a numeric-tolerance rule with two numeric values, the comparator
is the numeric-bands function wrapped in a result record. -/
theorem compare_num (sim : String → String → ℚ) (pat : String → String → Bool)
    (rule : ValidationRule) (e x : ℚ)
    (h : rule.comparison_type = CompType.numeric_tolerance) :
    compare sim pat (some rule) (some (Value.num e)) (some (Value.num x)) =
      ⟨rule.term_name, (numericBands e x rule.tolerance rule.critical_threshold).1,
        some (numericBands e x rule.tolerance rule.critical_threshold).2,
        methodName rule.comparison_type,
        classify (numericBands e x rule.tolerance rule.critical_threshold).1 rule.required,
        rule.term_name ++ " compared by " ++ methodName rule.comparison_type⟩ := by
  obtain ⟨n, ct, tol, crit, req, av, p⟩ := rule
  cases h
  rfl

/-- On a date-tolerance rule with two date values, the comparator is the
date-bands function wrapped in a result record. -/
theorem compare_date (sim : String → String → ℚ) (pat : String → String → Bool)
    (rule : ValidationRule) (e x : Int)
    (h : rule.comparison_type = CompType.date_tolerance) :
    compare sim pat (some rule) (some (Value.date e)) (some (Value.date x)) =
      ⟨rule.term_name, (dateBands e x rule.tolerance rule.critical_threshold).1,
        some (dateBands e x rule.tolerance rule.critical_threshold).2,
        methodName rule.comparison_type,
        classify (dateBands e x rule.tolerance rule.critical_threshold).1 rule.required,
        rule.term_name ++ " compared by " ++ methodName rule.comparison_type⟩ := by
  obtain ⟨n, ct, tol, crit, req, av, p⟩ := rule
  cases h
  rfl

theorem numericBands_valid (e x tol crit : ℚ) (h : relDev e x ≤ tol) :
    numericBands e x tol crit = (Verdict.valid, 1 - relDev e x) := by
  unfold numericBands
  rw [if_pos h]

theorem numericBands_warning (e x tol crit : ℚ) (h1 : tol < relDev e x)
    (h2 : relDev e x ≤ crit) :
    numericBands e x tol crit = (Verdict.warning, max 0 (1 - relDev e x)) := by
  unfold numericBands
  rw [if_neg (not_le.mpr h1), if_pos h2]

theorem numericBands_invalid (e x tol crit : ℚ) (hord : tol ≤ crit)
    (h : crit < relDev e x) :
    numericBands e x tol crit = (Verdict.invalid, max 0 (1 - relDev e x)) := by
  unfold numericBands
  rw [if_neg (not_le.mpr (lt_of_le_of_lt hord h)), if_neg (not_le.mpr h)]

theorem dateBands_invalid (e x : Int) (tol crit : ℚ) (hord : tol ≤ crit)
    (h : crit < dayDiff e x) :
    dateBands e x tol crit = (Verdict.invalid, dateScore e x crit) := by
  unfold dateBands
  rw [if_neg (not_le.mpr (lt_of_le_of_lt hord h)), if_neg (not_le.mpr h)]

/-! ## The claims -/

/-- C1: for a numeric TermPair under `numeric_tolerance` with
`relative_deviation = abs(expected - extracted) / max(abs(expected), epsilon)`:
deviation ≤ tolerance gives verdict valid with score exactly
`1 - deviation`; tolerance < deviation ≤ critical_threshold gives
warning; deviation > critical_threshold gives invalid with score
`max(0, 1 - deviation)` (under the registry invariant
`tolerance ≤ critical_threshold`). -/
theorem numeric_tolerance_bands (sim : String → String → ℚ)
    (pat : String → String → Bool) (rule : ValidationRule) (e x : ℚ)
    (hty : rule.comparison_type = CompType.numeric_tolerance)
    (hord : rule.tolerance ≤ rule.critical_threshold) :
    (relDev e x ≤ rule.tolerance →
      (compare sim pat (some rule) (some (Value.num e))
          (some (Value.num x))).validation_status = Verdict.valid ∧
      (compare sim pat (some rule) (some (Value.num e))
          (some (Value.num x))).match_score = some (1 - relDev e x)) ∧
    (rule.tolerance < relDev e x → relDev e x ≤ rule.critical_threshold →
      (compare sim pat (some rule) (some (Value.num e))
          (some (Value.num x))).validation_status = Verdict.warning) ∧
    (rule.critical_threshold < relDev e x →
      (compare sim pat (some rule) (some (Value.num e))
          (some (Value.num x))).validation_status = Verdict.invalid ∧
      (compare sim pat (some rule) (some (Value.num e))
          (some (Value.num x))).match_score = some (max 0 (1 - relDev e x))) := by
  rw [compare_num sim pat rule e x hty]
  refine ⟨fun h1 => ?_, fun h1 h2 => ?_, fun h1 => ?_⟩
  · rw [numericBands_valid e x _ _ h1]
    exact ⟨rfl, rfl⟩
  · rw [numericBands_warning e x _ _ h1 h2]
  · rw [numericBands_invalid e x _ _ hord h1]
    exact ⟨rfl, rfl⟩

/-- Witness for C1 at a concrete input: the interest-rate rule with
expected 4.10 and extracted 4.10 has deviation 0 ≤ 0.25 and comes back
valid with score 1. -/
theorem numeric_tolerance_bands_witness :
    (compare simZero patFalse (some interestRule) (some (Value.num (41 / 10)))
        (some (Value.num (41 / 10)))).validation_status = Verdict.valid ∧
    (compare simZero patFalse (some interestRule) (some (Value.num (41 / 10)))
        (some (Value.num (41 / 10)))).match_score = some (1 - relDev (41 / 10) (41 / 10)) :=
  (numeric_tolerance_bands simZero patFalse interestRule (41 / 10) (41 / 10) rfl
      (by norm_num [interestRule])).1
    (by norm_num [relDev, epsilon, interestRule])

/-- C2: whenever the rule is required and the extracted value is absent,
the comparator returns verdict `missing` with score 0 — whatever the
comparison type and whatever the expected value — and the classifier
marks the result critical. -/
theorem missing_required_critical (sim : String → String → ℚ)
    (pat : String → String → Bool) (rule : ValidationRule)
    (expected : Option Value) (hreq : rule.required = true) :
    (compare sim pat (some rule) expected Option.none).validation_status =
        Verdict.missing ∧
    (compare sim pat (some rule) expected Option.none).match_score = some 0 ∧
    (compare sim pat (some rule) expected Option.none).severity =
        Severity.critical := by
  obtain ⟨n, ct, tol, crit, req, av, p⟩ := rule
  cases hreq
  exact ⟨rfl, rfl, rfl⟩

/-- Witness for C2 at a concrete input: the settlement-date rule with no
extracted value. -/
theorem missing_required_critical_witness :
    (compare simZero patFalse (some settlementRule)
        (some (Value.date 0)) Option.none).validation_status = Verdict.missing ∧
    (compare simZero patFalse (some settlementRule)
        (some (Value.date 0)) Option.none).match_score = some 0 ∧
    (compare simZero patFalse (some settlementRule)
        (some (Value.date 0)) Option.none).severity = Severity.critical :=
  missing_required_critical simZero patFalse settlementRule (some (Value.date 0)) rfl

theorem hasCritical_iff (rs : List ValidationResult) :
    hasCritical rs = true ↔ ∃ r ∈ rs, r.severity = Severity.critical := by
  simp [hasCritical]

theorem hasMinorOrWarning_iff (rs : List ValidationResult) :
    hasMinorOrWarning rs = true ↔
      ∃ r ∈ rs, r.severity = Severity.minor ∨
        r.validation_status = Verdict.warning := by
  simp [hasMinorOrWarning]

/-- C3: the Risk Scorer's compliance status is `non_compliant` exactly
when some result is critical; otherwise `partial_compliant` exactly when
some result is minor-severity or warning-status; otherwise `compliant`. -/
theorem compliance_status_spec (rs : List ValidationResult) :
    (compliance_status rs = Compliance.non_compliant ↔
      ∃ r ∈ rs, r.severity = Severity.critical) ∧
    (compliance_status rs = Compliance.partial_compliant ↔
      (¬ ∃ r ∈ rs, r.severity = Severity.critical) ∧
        ∃ r ∈ rs, r.severity = Severity.minor ∨
          r.validation_status = Verdict.warning) ∧
    (compliance_status rs = Compliance.compliant ↔
      (¬ ∃ r ∈ rs, r.severity = Severity.critical) ∧
        ¬ ∃ r ∈ rs, r.severity = Severity.minor ∨
          r.validation_status = Verdict.warning) := by
  have A := hasCritical_iff rs
  have B := hasMinorOrWarning_iff rs
  unfold compliance_status
  cases hc : hasCritical rs with
  | true =>
      rw [hc] at A
      simp at A
      simp [hc, A]
  | false =>
      rw [hc] at A
      simp at A
      cases hm : hasMinorOrWarning rs with
      | true =>
          rw [hm] at B
          simp at B
          simp [hc, hm, A, B]
          exact A
      | false =>
          rw [hm] at B
          simp at B
          simp [hc, hm, A, B]
          exact ⟨A, fun _ => B, A, B⟩

/-- C4: `decide` on a session still in `pending` or `processing` fails
with InvalidStateError and leaves the session unchanged; `start` on a
session not in `pending` fails with ConflictError and leaves the
session unchanged. -/
theorem state_machine_guards (s : ValidationSession) (d : Decision)
    (reason : String) (trade? : Option (List (String × Value)))
    (extracted : List ExtractedTerm) (registry : String → Option ValidationRule)
    (sim : String → String → ℚ) (pat : String → String → Bool) :
    ((s.status = SessionStatus.pending ∨ s.status = SessionStatus.processing) →
      decideStep s d reason = (Except.error VErrorKind.invalidStateError, s)) ∧
    (s.status ≠ SessionStatus.pending →
      startStep s trade? extracted registry sim pat =
        (Except.error VErrorKind.conflictError, s)) := by
  constructor
  · rintro (h | h) <;> simp [decideStep, h]
  · intro h
    unfold startStep
    rw [if_neg h]

/-- The session the frontend's create call yields, used as a concrete
fixture. -/
def pendingSession : ValidationSession :=
  createSession 1 "Deutsche validation" "file-1" "TR-2025-0423"

/-- A session already past its run, used as a concrete fixture. -/
def completedSession : ValidationSession :=
  { pendingSession with status := SessionStatus.completed }

/-- Witness for C4 at concrete sessions: deciding a pending session and
starting a completed one both fail with the prescribed error kinds. -/
theorem state_machine_guards_witness :
    decideStep pendingSession Decision.approve "" =
      (Except.error VErrorKind.invalidStateError, pendingSession) ∧
    startStep completedSession Option.none [] (fun _ => Option.none)
        simZero patFalse =
      (Except.error VErrorKind.conflictError, completedSession) :=
  ⟨(state_machine_guards pendingSession Decision.approve "" Option.none []
        (fun _ => Option.none) simZero patFalse).1 (Or.inl rfl),
    (state_machine_guards completedSession Decision.approve "" Option.none []
        (fun _ => Option.none) simZero patFalse).2
      (by simp [completedSession, pendingSession, createSession])⟩

/-- C5: the Risk Scorer is a deterministic pure function of the result
sequence: identical inputs give identical summaries, component by
component. -/
theorem scorer_deterministic (rs₁ rs₂ : List ValidationResult) (h : rs₁ = rs₂) :
    computeSummary rs₁ = computeSummary rs₂ ∧
    (computeSummary rs₁).accuracy = (computeSummary rs₂).accuracy ∧
    (computeSummary rs₁).risk = (computeSummary rs₂).risk ∧
    (computeSummary rs₁).compliance = (computeSummary rs₂).compliance ∧
    (computeSummary rs₁).recs = (computeSummary rs₂).recs := by
  subst h
  exact ⟨rfl, rfl, rfl, rfl, rfl⟩

/-- Witness for C5 at a concrete result list. -/
theorem scorer_deterministic_witness :
    computeSummary [settlementResult] = computeSummary [settlementResult] ∧
    (computeSummary [settlementResult]).accuracy =
      (computeSummary [settlementResult]).accuracy ∧
    (computeSummary [settlementResult]).risk =
      (computeSummary [settlementResult]).risk ∧
    (computeSummary [settlementResult]).compliance =
      (computeSummary [settlementResult]).compliance ∧
    (computeSummary [settlementResult]).recs =
      (computeSummary [settlementResult]).recs :=
  scorer_deterministic [settlementResult] [settlementResult] rfl

/-- The relative deviation between expected 4.10 and extracted 4.40 is
3/41 (about 0.073), not the 0.30 absolute difference. -/
theorem relDev_interest : relDev (41 / 10) (22 / 5) = 3 / 41 := by
  unfold relDev epsilon
  rw [show (41 : ℚ) / 10 - 22 / 5 = -(3 / 10) by norm_num, abs_neg,
    abs_of_nonneg (by norm_num : (0 : ℚ) ≤ 3 / 10),
    abs_of_nonneg (by norm_num : (0 : ℚ) ≤ 41 / 10),
    max_eq_left (by norm_num : (1 : ℚ) / 1000000000 ≤ 41 / 10)]
  norm_num

/-- The full comparator output on the interest-rate scenario. -/
theorem interestResult_eq :
    interestResult = ⟨"interest_rate", Verdict.valid, some (38 / 41),
      "numeric_tolerance", Severity.none,
      "interest_rate compared by numeric_tolerance"⟩ := by
  have hb : numericBands (41 / 10) (22 / 5) interestRule.tolerance
      interestRule.critical_threshold = (Verdict.valid, 38 / 41) := by
    rw [numericBands_valid _ _ _ _ (by rw [relDev_interest]; norm_num [interestRule]),
      relDev_interest]
    norm_num
  unfold interestResult
  rw [compare_num simZero patFalse interestRule _ _ rfl, hb]
  rfl

/-- C6: on the Deutsche Bank sample's settlement date (expected
2025-04-10, extracted 2025-05-15, 35 days apart) under the reference
rule (tolerance 5 days, critical 14 days), the comparator returns
invalid with score clamped to 0, the classifier marks it critical, and
every result list containing it is non_compliant. -/
theorem settlement_scenario :
    dayDiff (daysFromCivil 2025 4 10) (daysFromCivil 2025 5 15) = 35 ∧
    settlementResult.validation_status = Verdict.invalid ∧
    settlementResult.match_score = some 0 ∧
    settlementResult.severity = Severity.critical ∧
    ∀ rs : List ValidationResult, settlementResult ∈ rs →
      compliance_status rs = Compliance.non_compliant := by
  have hd : (daysFromCivil 2025 4 10 - daysFromCivil 2025 5 15).natAbs = 35 := by
    decide
  have h35 : dayDiff (daysFromCivil 2025 4 10) (daysFromCivil 2025 5 15) = 35 := by
    unfold dayDiff
    rw [hd]
    norm_num
  have htol : settlementRule.tolerance ≤ settlementRule.critical_threshold := by
    norm_num [settlementRule]
  have hcrit : settlementRule.critical_threshold <
      dayDiff (daysFromCivil 2025 4 10) (daysFromCivil 2025 5 15) := by
    rw [h35]
    norm_num [settlementRule]
  have hscore : dateScore (daysFromCivil 2025 4 10) (daysFromCivil 2025 5 15)
      settlementRule.critical_threshold = 0 := by
    unfold dateScore
    rw [h35]
    exact max_eq_left (by norm_num [settlementRule])
  have hbands : dateBands (daysFromCivil 2025 4 10) (daysFromCivil 2025 5 15)
      settlementRule.tolerance settlementRule.critical_threshold =
      (Verdict.invalid, 0) := by
    rw [dateBands_invalid _ _ _ _ htol hcrit, hscore]
  have hres : settlementResult = ⟨"settlement_date", Verdict.invalid, some 0,
      "date_tolerance", Severity.critical,
      "settlement_date compared by date_tolerance"⟩ := by
    unfold settlementResult
    rw [compare_date simZero patFalse settlementRule _ _ rfl, hbands]
    rfl
  refine ⟨h35, by rw [hres], by rw [hres], by rw [hres], ?_⟩
  intro rs hmem
  have hc : hasCritical rs = true := by
    simp only [hasCritical, List.any_eq_true, decide_eq_true_eq]
    exact ⟨settlementResult, hmem, by rw [hres]⟩
  simp [compliance_status, hc]

/-- C7 counterexample: on the interest-rate scenario (expected 4.10,
extracted 4.40, tolerance 0.25, critical 0.5) the comparator does not
return warning and the classifier does not assign minor severity: the
comparator's deviation is relative, not absolute points. -/
theorem interest_not_warning :
    interestResult.validation_status ≠ Verdict.warning ∧
    interestResult.severity ≠ Severity.minor := by
  rw [interestResult_eq]
  refine ⟨?_, ?_⟩ <;> simp

/-- C7 (amended): on the interest-rate scenario the comparator's
relative deviation is 3/41 ≈ 0.073 ≤ 0.25, so the verdict is valid with
score 38/41 and the classifier assigns severity none. -/
theorem interest_scenario :
    relDev (41 / 10) (22 / 5) = 3 / 41 ∧
    interestResult.validation_status = Verdict.valid ∧
    interestResult.match_score = some (38 / 41) ∧
    interestResult.severity = Severity.none := by
  refine ⟨relDev_interest, ?_, ?_, ?_⟩ <;> rw [interestResult_eq]

/-- The comparator's type-mismatch path: an inapplicable comparison
degrades to an invalid verdict with the explanatory description. -/
theorem compare_mismatch (sim : String → String → ℚ) (pat : String → String → Bool)
    (rule : ValidationRule) (e x : Value)
    (h : compareTyped sim pat rule e x = Option.none) :
    compare sim pat (some rule) (some e) (some x) =
      ⟨rule.term_name, Verdict.invalid, some 0, methodName rule.comparison_type,
        classify Verdict.invalid rule.required,
        "type mismatch between expected and extracted values"⟩ := by
  have hs : compare sim pat (some rule) (some e) (some x) =
      compareBoth sim pat rule e x := rfl
  rw [hs]
  unfold compareBoth
  rw [h]

/-- C8: a comparison the rule's type cannot complete (type mismatch
between expected and extracted) yields verdict invalid with an
explanatory description, not an exception; and a pending session whose
trade record resolves always completes its run — comparator, classifier
and scorer are total functions, so no comparison anomaly aborts the
session. -/
theorem comparator_total (sim : String → String → ℚ) (pat : String → String → Bool)
    (rule : ValidationRule) (e x : Value)
    (hmis : compareTyped sim pat rule e x = Option.none) :
    (compare sim pat (some rule) (some e) (some x)).validation_status =
        Verdict.invalid ∧
    (compare sim pat (some rule) (some e) (some x)).description =
        "type mismatch between expected and extracted values" ∧
    ∀ (s : ValidationSession) (trade : List (String × Value))
        (extracted : List ExtractedTerm) (registry : String → Option ValidationRule),
      s.status = SessionStatus.pending →
        ((startStep s (some trade) extracted registry sim pat).2).status =
          SessionStatus.completed := by
  rw [compare_mismatch sim pat rule e x hmis]
  refine ⟨rfl, rfl, ?_⟩
  intro s trade extracted registry hp
  unfold startStep
  rw [if_pos hp]

/-- Witness for C8 at a concrete input: a numeric-tolerance rule handed
a string expected value and a numeric extracted value. -/
theorem comparator_total_witness :
    (compare simZero patFalse (some interestRule) (some (Value.str "4.10%"))
        (some (Value.num (22 / 5)))).validation_status = Verdict.invalid ∧
    (compare simZero patFalse (some interestRule) (some (Value.str "4.10%"))
        (some (Value.num (22 / 5)))).description =
      "type mismatch between expected and extracted values" ∧
    ∀ (s : ValidationSession) (trade : List (String × Value))
        (extracted : List ExtractedTerm) (registry : String → Option ValidationRule),
      s.status = SessionStatus.pending →
        ((startStep s (some trade) extracted registry simZero patFalse).2).status =
          SessionStatus.completed :=
  comparator_total simZero patFalse interestRule (Value.str "4.10%")
    (Value.num (22 / 5)) rfl

/-- C9: the engine's create takes (session_name, file_id, trade_id) and
the created session carries that trade_id; the frontend's
session-creation call sends only session_name, file_id and
validation_type to POST /validation/sessions — no trade_id — and
supplies trade_id separately in the start-validation body. -/
theorem create_session_interface (i : Nat) (n f t : String)
    (sd : SessionFormData) (sid : String) :
    (createSession i n f t).trade_id = t ∧
    (createSessionRequest sd).body.map Prod.fst =
      ["session_name", "file_id", "validation_type"] ∧
    (∀ v : String, ("trade_id", v) ∉ (createSessionRequest sd).body) ∧
    ("trade_id", sd.trade_id) ∈ (startValidationRequest sid sd).body := by
  refine ⟨rfl, rfl, ?_, ?_⟩
  · intro v hv
    simp [createSessionRequest] at hv
  · simp [startValidationRequest]

/-- C10: after a successful decision call the frontend PATCHes the
session status to the single value its decision switch selects —
approve → completed, reject → failed, manual_review → manual_review,
any other decision → completed (the default branch) — and a failing
status PATCH is swallowed: the flow still reaches the dashboard with no
error banner. -/
theorem decision_status_patch (d : String) (patchOk : Bool) :
    statusForDecision "approve" = "completed" ∧
    statusForDecision "reject" = "failed" ∧
    statusForDecision "manual_review" = "manual_review" ∧
    (d ≠ "approve" → d ≠ "reject" → d ≠ "manual_review" →
      statusForDecision d = "completed") ∧
    (handleDecision d true patchOk).statusPatchSent =
      some (statusForDecision d) ∧
    (handleDecision d true false).navigatedToDashboard = true ∧
    (handleDecision d true false).errorSet = false := by
  refine ⟨rfl, rfl, rfl, ?_, rfl, rfl, rfl⟩
  intro h1 h2 h3
  unfold statusForDecision
  rw [if_neg h1, if_neg h2, if_neg h3]

end Termsheet


